import Mathlib

/-!
Verification of the advanced-calculator repository's History + Memento
(undo/redo) + persistence core, as a shallow embedding in Lean.

Modelling conventions:
* Python floats are modelled as real numbers (`ℝ`); exact IEEE-754 bit-level
  behaviour (rounding of individual arithmetic operations, NaN/inf) is not
  modelled, matching the spec's real-arithmetic reading of the operations.
* Python exceptions are modelled by the inductive `PyError`.  The repository's
  own taxonomy (`app/exceptions.py`) is `CalculatorError` with subclasses
  `OperationError`, `ValidationError`, `HistoryError`; the builtin
  `IndexError` raised by the Caretaker lies outside that taxonomy.
* Mutating methods become state-passing functions; methods that can raise
  return `Except PyError _`.
* The CSV file on disk is modelled by `CsvFile` (header plus rows of cells);
  a cell is either text that does not parse as a float (`Cell.str`) or text
  whose parsed float value is `x` (`Cell.num x`).  The textual rendering of a
  numeric cell after pandas `astype(string)` is not modelled (`Cell.asString`
  returns `""` there); history files written by `save_csv` carry string cells
  exactly in the `operation` and `timestamp` columns, so no claim depends on
  that rendering.
-/

set_option autoImplicit false

/-- Exception model mirroring `app/exceptions.py` plus the builtin
`IndexError` used by the Caretaker (`app/calculator_memento.py`). -/
inductive PyError where
  | indexError (msg : String)
  | operationError (msg : String)
  | validationError (msg : String)
  | historyError (msg : String)
deriving DecidableEq

/-- Membership test for the repository's public error taxonomy: the three
`CalculatorError` subclasses of `app/exceptions.py`.  The builtin
`IndexError` is not a `CalculatorError`. -/
def PyError.isCalculatorError : PyError → Bool
  | .indexError _ => false
  | .operationError _ => true
  | .validationError _ => true
  | .historyError _ => true

/-- Immutable record of a single calculation (`app/calculation.py`,
`Calculation`).  The timestamp is the ISO-8601 string attached at creation;
`from_values` stamps the wall clock, which the embedding takes as an explicit
argument. -/
structure Calculation where
  operation : String
  a : ℝ
  b : ℝ
  result : ℝ
  timestamp : String

/-- Bounded history buffer (`app/history.py`, `History.__init__`): a list of
records (`self._items`, oldest first) and the capacity (`self._max`). -/
structure History where
  items : List Calculation
  max : Nat

/-- Constructor `History(max_size)`: fresh history with an empty record list. -/
def History.new (max_size : Nat) : History :=
  { items := [], max := max_size }

/-- Model of `History.add` (history.py lines 30-34): append, then if the length
exceeds capacity drop the single oldest record (`self._items.pop(0)`). -/
def History.add (h : History) (c : Calculation) : History :=
  let its := h.items ++ [c]
  if its.length > h.max then { h with items := its.tail } else { h with items := its }

/-- Model of `History.clear`: empty the record list. -/
def History.clear (h : History) : History :=
  { h with items := [] }

/-- Immutable snapshot of a History's full record sequence
(`app/calculator_memento.py`, `HistorySnapshot`). -/
structure HistorySnapshot where
  state : List Calculation

/-- Model of `History.to_snapshot`: capture the current record sequence. -/
def History.to_snapshot (h : History) : HistorySnapshot :=
  ⟨h.items⟩

/-- Model of `History.restore`: replace the record sequence with the snapshot's,
bypassing capacity eviction. -/
def History.restore (h : History) (s : HistorySnapshot) : History :=
  { h with items := s.state }

/-- Two-stack memento caretaker (`app/calculator_memento.py`, `Caretaker`).
Python appends to and pops from the end of each list, so the stack tops are
the last elements. -/
structure Caretaker where
  undoStack : List HistorySnapshot
  redoStack : List HistorySnapshot

/-- Constructor `Caretaker()` with both stacks empty. -/
def Caretaker.new : Caretaker :=
  ⟨[], []⟩

/-- Model of `Caretaker.save`: push the snapshot onto the undo stack and clear the
redo stack (branching semantics). -/
def Caretaker.save (ct : Caretaker) (s : HistorySnapshot) : Caretaker :=
  ⟨ct.undoStack ++ [s], []⟩

/-- Model of `Caretaker.undo`: raise `IndexError("Nothing to undo")` when the undo
stack is empty, else pop its last entry, push `current` onto the redo stack,
and return the popped snapshot together with the new stacks. -/
def Caretaker.undo (ct : Caretaker) (current : HistorySnapshot) :
    Except PyError (HistorySnapshot × Caretaker) :=
  match ct.undoStack.getLast? with
  | none => .error (.indexError "Nothing to undo")
  | some prev => .ok (prev, ⟨ct.undoStack.dropLast, ct.redoStack ++ [current]⟩)

/-- Model of `Caretaker.redo`: symmetric to `undo`, raising
`IndexError("Nothing to redo")` when the redo stack is empty. -/
def Caretaker.redo (ct : Caretaker) (current : HistorySnapshot) :
    Except PyError (HistorySnapshot × Caretaker) :=
  match ct.redoStack.getLast? with
  | none => .error (.indexError "Nothing to redo")
  | some nxt => .ok (nxt, ⟨ct.undoStack ++ [current], ct.redoStack.dropLast⟩)

/-! ### Persistence model (history.py, persistence section) -/

/-- One CSV cell, abstracted relative to float-parsing: `str s` is text `s`
that does not parse as a float, `num x` is text whose float value is `x`. -/
inductive Cell where
  | str (s : String)
  | num (x : ℝ)

/-- Conversion of a cell under `astype("float64")` / `float(...)`: succeeds
exactly on numeric cells; the error payload is the offending text, standing
for pandas' description of the invalid value. -/
def Cell.asFloatE : Cell → Except String ℝ
  | .str s => .error s
  | .num x => .ok x

/-- Conversion of a cell under `astype("string")` / `str(...)`.  String cells
keep their text; the rendering of numeric cells is outside the model (see the
header comment). -/
def Cell.asString : Cell → String
  | .str s => s
  | .num _ => ""

/-- A CSV file as pandas sees it after parsing: column names and data rows. -/
structure CsvFile where
  header : List String
  rows : List (List Cell)

/-- The fixed column order used by `History.to_dataframe`
(`columns=["operation", "a", "b", "result", "timestamp"]`). -/
def csvColumns : List String :=
  ["operation", "a", "b", "result", "timestamp"]

/-- The required column set of `History._validate_loaded_df` in sorted order,
as produced by Python's `sorted(...)`. -/
def sortedRequiredColumns : List String :=
  ["a", "b", "operation", "result", "timestamp"]

/-- Computation `sorted(required - set(df.columns))`: the required columns absent from the
header, in sorted order (filtering the sorted required list preserves
sortedness). -/
def missingColumns (header : List String) : List String :=
  sortedRequiredColumns.filter (fun c => ! header.contains c)

/-- Rendering of the missing-columns error of `_validate_loaded_df`
(`f"Malformed history file: missing columns {sorted(missing)}."`). -/
def missingColumnsMessage (missing : List String) : String :=
  "Malformed history file: missing columns [" ++ String.intercalate ", " missing ++ "]."

/-- Rendering of the dtype-conversion error of `load_csv`
(`f"Malformed history file: invalid data types ({e})."`). -/
def invalidTypesMessage (e : String) : String :=
  "Malformed history file: invalid data types (" ++ e ++ ")."

/-- One serialized record, in `csvColumns` order (`Calculation.to_dict`
turned into a dataframe row). -/
def calcToRow (c : Calculation) : List Cell :=
  [.str c.operation, .num c.a, .num c.b, .num c.result, .str c.timestamp]

/-- Model of `History.to_dataframe`: every record becomes one row, in history order,
under the fixed header. -/
def History.to_dataframe (h : History) : CsvFile :=
  ⟨csvColumns, h.items.map calcToRow⟩

/-- Model of `History.save_csv`: the file written to disk is exactly the dataframe of
the current records (the atomic temp-file/rename mechanics concern crash
safety only and are not modelled). -/
def History.save_csv (h : History) : CsvFile :=
  h.to_dataframe

/-- Look up the cell of column `nm` in a row: pandas locates the column by
name in the header, the row holds the cells in header order.  Fails when the
column is absent or the row is too short. -/
def getCell (f : CsvFile) (r : List Cell) (nm : String) : Except String Cell :=
  match f.header.findIdx? (fun c => c == nm) with
  | none => .error nm
  | some i =>
    match r.get? i with
    | none => .error nm
    | some cell => .ok cell

/-- Conversion of one data row into a `Calculation` (the `astype` dtype check
together with the row-building comprehension of `load_csv` lines 97-121):
`a`, `b`, `result` must parse as floats, `operation` and `timestamp` are read
back as strings. -/
def rowToCalcE (f : CsvFile) (r : List Cell) : Except String Calculation := do
  let op ← getCell f r "operation"
  let ca ← getCell f r "a"
  let cb ← getCell f r "b"
  let cr ← getCell f r "result"
  let ts ← getCell f r "timestamp"
  let a ← ca.asFloatE
  let b ← cb.asFloatE
  let res ← cr.asFloatE
  .ok { operation := op.asString, a := a, b := b, result := res, timestamp := ts.asString }

/-- Row-by-row conversion of all data rows, in file order; the first failing
cell aborts with its error, before any in-memory state is touched (in the
source the whole `astype` conversion happens before `self._items` is
reassigned). -/
def rowsToCalcs (f : CsvFile) : List (List Cell) → Except String (List Calculation)
  | [] => .ok []
  | r :: rs => do
    let c ← rowToCalcE f r
    let cs ← rowsToCalcs f rs
    .ok (c :: cs)

/-- Model of `History.load_csv` (history.py lines 88-122).  The `file` argument models
the configured path: `none` when the path does not exist, otherwise the
parsed file.  A zero-byte file has no columns (pandas `EmptyDataError`,
mapped to "empty" by `_read_with_fallback`); `_validate_loaded_df` then
rejects a file with no data rows as "empty" and a header missing required
columns as "missing columns"; the `astype` step rejects unparseable numeric
cells; on success the in-memory records are replaced by the parsed rows and
the row count is returned.  On every failure the history is returned
unchanged. -/
def History.load_csv (h : History) (file : Option CsvFile) : History × Except PyError Nat :=
  match file with
  | none => (h, .error (.historyError "History file not found."))
  | some f =>
    if f.header = [] then
      (h, .error (.historyError "History file is empty."))
    else if f.rows.isEmpty then
      (h, .error (.historyError "History file is empty."))
    else if missingColumns f.header = [] then
      match rowsToCalcs f f.rows with
      | .error e => (h, .error (.historyError (invalidTypesMessage e)))
      | .ok items => ({ h with items := items }, .ok items.length)
    else
      (h, .error (.historyError (missingColumnsMessage (missingColumns f.header))))

/-- Rectangularity of a parsed file: every data row has one cell per header
column.  (pandas pads or rejects ragged rows at the tokenizing stage; the
claims about load are about rectangular content.) -/
def CsvFile.Rect (f : CsvFile) : Prop :=
  ∀ r ∈ f.rows, r.length = f.header.length

/-- A concrete record whose operand `a` is the given value, used by the
concrete scenarios of the spec (section 8). -/
def testRec (x : ℝ) : Calculation :=
  { operation := "add", a := x, b := 0, result := 0, timestamp := "" }

/-! ### Operation set (app/operations.py) -/

/-- The keys of `OperationFactory.mapping`, in source order. -/
def operationNames : List String :=
  ["add", "subtract", "multiply", "divide", "power", "root",
   "modulus", "int_divide", "percent", "abs_diff"]

/-- Model of `Root.execute` (operations.py lines 42-61): zeroth root is rejected; a
negative base is allowed only for an odd integer index `n`, returning the
negative real root `-(abs(a) ** (1.0 / n))`; a non-negative base returns
`a ** (1.0 / b)`.  Python's `float(b).is_integer()` holds exactly when
`b = ⌊b⌋`, and `int(b)` is then `⌊b⌋`; Python's `%` on integers is `Int.emod`
(result in `[0, 2)` for modulus `2`). -/
noncomputable def Root.execute (a b : ℝ) : Except PyError ℝ :=
  if b = 0 then .error (.operationError "Zeroth root undefined.")
  else if a < 0 then
    if b = (⌊b⌋ : ℝ) then
      if ⌊b⌋ % 2 = 0 then .error (.operationError "Even root of negative number is not real.")
      else .ok (-(|a| ^ ((1 : ℝ) / (⌊b⌋ : ℝ))))
    else .error (.operationError "Root of negative base requires an integer index.")
  else .ok (a ^ ((1 : ℝ) / b))

/-- Python's `str.lower()`, character by character (the operation names that
matter are ASCII). -/
def pyToLower (s : String) : String :=
  ⟨s.data.map Char.toLower⟩

/-- Python's `str.strip()`: remove leading and trailing whitespace. -/
def pyStrip (s : String) : String :=
  ⟨((s.data.dropWhile Char.isWhitespace).reverse.dropWhile Char.isWhitespace).reverse⟩

/-- The lookup key of `OperationFactory.create`: `name.strip().lower()`. -/
def opKey (name : String) : String :=
  pyToLower (pyStrip name)

/-- Model of `OperationFactory.create(name)` followed by `.execute(a, b)` on the
created operation.  `create` normalizes the key with `strip().lower()` and
raises `OperationError` for unknown names; each division-family operation
rejects a zero second operand with its own message.  Python's float `%` is
`a - b * ⌊a / b⌋` (sign of divisor) and `//` is `⌊a / b⌋` as a float; real
exponentiation stands in for Python's `**` (no claim involves a negative
base under `power`, where Python would produce a complex number). -/
noncomputable def executeOp (name : String) (a b : ℝ) : Except PyError ℝ :=
  let key := opKey name
  if key = "add" then .ok (a + b)
  else if key = "subtract" then .ok (a - b)
  else if key = "multiply" then .ok (a * b)
  else if key = "divide" then
    if b = 0 then .error (.operationError "Division by zero.") else .ok (a / b)
  else if key = "power" then .ok (a ^ b)
  else if key = "root" then Root.execute a b
  else if key = "modulus" then
    if b = 0 then .error (.operationError "Modulus by zero.") else .ok (a - b * (⌊a / b⌋ : ℝ))
  else if key = "int_divide" then
    if b = 0 then .error (.operationError "Integer division by zero.") else .ok ((⌊a / b⌋ : ℝ))
  else if key = "percent" then
    if b = 0 then .error (.operationError "Percentage with denominator zero.")
    else .ok (a / b * 100)
  else if key = "abs_diff" then .ok |a - b|
  else .error (.operationError ("Unknown operation: " ++ name))

/-! ### Calculator facade (app/calculator.py) -/

/-- Rounding `round(result, self.precision)`: rounding to `n` decimal places.  Python
rounds half to even on the underlying binary float; the model rounds the real
value to the nearest multiple of `10 ^ (-n)` (no claim depends on the value
produced for ties). -/
noncomputable def pyRound (n : Nat) (x : ℝ) : ℝ :=
  round (x * 10 ^ n) / 10 ^ n

/-- The Calculator facade state (`Calculator.__init__`): the bounded history,
the caretaker, and the mutable runtime precision.  The two observers only log
and write the autosave file; they do not touch this state. -/
structure Calculator where
  history : History
  caretaker : Caretaker
  precision : Nat

/-- Model of `Calculator.calculate` (calculator.py lines 54-66): save a pre-mutation
snapshot (which also clears the redo stack), then create and execute the
operation — an unknown name or a domain error aborts here, after the
snapshot was already saved — then round, build the record with the current
timestamp `ts`, and append it to the history. -/
noncomputable def Calculator.calculate (st : Calculator) (op_name : String) (a b : ℝ)
    (ts : String) : Calculator × Except PyError ℝ :=
  let ct := st.caretaker.save st.history.to_snapshot
  match executeOp op_name a b with
  | .error e => ({ st with caretaker := ct }, .error e)
  | .ok result =>
    let result := pyRound st.precision result
    let rec_ : Calculation :=
      { operation := op_name, a := a, b := b, result := result, timestamp := ts }
    ({ st with caretaker := ct, history := st.history.add rec_ }, .ok result)

/-- Model of `Calculator.cmd_clear`: snapshot for undo, then clear the history. -/
def Calculator.cmd_clear (st : Calculator) : Calculator :=
  { st with caretaker := st.caretaker.save st.history.to_snapshot,
            history := st.history.clear }

/-- Model of `Calculator.cmd_undo` (calculator.py lines 76-78): ask the caretaker for
the previous snapshot, passing the current one, and restore it.  The
caretaker's `IndexError` propagates unwrapped. -/
def Calculator.cmd_undo (st : Calculator) : Except PyError Calculator :=
  match st.caretaker.undo st.history.to_snapshot with
  | .error e => .error e
  | .ok (snap, ct) => .ok { st with caretaker := ct, history := st.history.restore snap }

/-- Model of `Calculator.cmd_redo` (calculator.py lines 80-82): symmetric to
`cmd_undo`. -/
def Calculator.cmd_redo (st : Calculator) : Except PyError Calculator :=
  match st.caretaker.redo st.history.to_snapshot with
  | .error e => .error e
  | .ok (snap, ct) => .ok { st with caretaker := ct, history := st.history.restore snap }

/-- Model of `Calculator.cmd_save`: write the current records to the configured file
(returning the written file in place of its path). -/
def Calculator.cmd_save (st : Calculator) : CsvFile :=
  st.history.save_csv

/-- Model of `Calculator.cmd_load` (calculator.py lines 87-90): snapshot for undo
(this also clears the redo stack), then load, which may fail. -/
def Calculator.cmd_load (st : Calculator) (file : Option CsvFile) :
    Calculator × Except PyError Nat :=
  let ct := st.caretaker.save st.history.to_snapshot
  let res := st.history.load_csv file
  ({ st with caretaker := ct, history := res.1 }, res.2)

/-! ## Theorems -/

theorem History.add_def (h : History) (c : Calculation) :
    h.add c = if h.items.length + 1 > h.max
      then { h with items := (h.items ++ [c]).tail }
      else { h with items := h.items ++ [c] } := by
  simp only [History.add, List.length_append, List.length_singleton]

theorem History.add_max (h : History) (c : Calculation) : (h.add c).max = h.max := by
  rw [History.add_def]
  split <;> rfl

theorem History.add_length_le (h : History) (c : Calculation)
    (hle : h.items.length ≤ h.max) : (h.add c).items.length ≤ h.max := by
  rw [History.add_def]
  by_cases hc : h.items.length + 1 > h.max
  · rw [if_pos hc]
    simp only [List.length_tail, List.length_append, List.length_singleton]
    omega
  · rw [if_neg hc]
    simp only [List.length_append, List.length_singleton]
    omega

theorem History.foldl_add_max (cs : List Calculation) (h : History) :
    (cs.foldl History.add h).max = h.max := by
  induction cs generalizing h with
  | nil => rfl
  | cons c cs ih => simpa [List.foldl_cons, History.add_max] using ih (h.add c)

theorem History.foldl_add_length_le (cs : List Calculation) (h : History)
    (hle : h.items.length ≤ h.max) : (cs.foldl History.add h).items.length ≤ h.max := by
  induction cs generalizing h with
  | nil => exact hle
  | cons c cs ih =>
    have h2 := ih (h.add c) (by rw [History.add_max]; exact History.add_length_le h c hle)
    rw [List.foldl_cons]
    rwa [History.add_max h c] at h2

theorem History.foldl_add_small (cs : List Calculation) (h : History)
    (hle : h.items.length + cs.length ≤ h.max) :
    (cs.foldl History.add h).items = h.items ++ cs := by
  induction cs generalizing h with
  | nil => simp
  | cons c cs ih =>
    have hnoev : ¬ h.items.length + 1 > h.max := by
      simp only [List.length_cons] at hle
      omega
    rw [List.foldl_cons, History.add_def, if_neg hnoev]
    have := ih { h with items := h.items ++ [c] }
      (by
        simp only [List.length_append, List.length_singleton, List.length_cons,
          List.length_nil, List.length_cons] at *
        omega)
    rw [this, List.append_assoc, List.singleton_append]

theorem History.add_at_capacity (h : History) (c : Calculation)
    (hpos : 0 < h.max) (hful : h.items.length = h.max) :
    (h.add c).items = h.items.tail ++ [c] := by
  rw [History.add_def, if_pos (by omega)]
  have hne : h.items ≠ [] := by
    intro h0
    rw [h0] at hful
    simp at hful
    omega
  simpa using List.tail_append_singleton_of_ne_nil hne

theorem History.foldl_add_capacity_succ (max_size : Nat) (cs : List Calculation)
    (hpos : 0 < max_size) (hlen : cs.length = max_size + 1) :
    (cs.foldl History.add (History.new max_size)).items = cs.tail := by
  rcases List.eq_nil_or_concat cs with rfl | ⟨cs', c, rfl⟩
  · simp at hlen
  · have hlen' : cs'.length = max_size := by
      simpa [List.concat_eq_append] using hlen
    have hsmall : (cs'.foldl History.add (History.new max_size)).items = cs' := by
      simpa [History.new] using
        History.foldl_add_small cs' (History.new max_size) (by simp [History.new, hlen'])
    have hmax : (cs'.foldl History.add (History.new max_size)).max = max_size :=
      History.foldl_add_max cs' (History.new max_size)
    rw [List.concat_eq_append, List.foldl_append, List.foldl_cons, List.foldl_nil]
    rw [History.add_at_capacity _ c (by omega) (by rw [hsmall, hmax, hlen'])]
    rw [hsmall]
    cases cs' with
    | nil => simp at hlen'; omega
    | cons x xs => simp

/-- C1: with positive capacity the record count after any sequence of adds
never exceeds the capacity; an add at capacity evicts exactly the single
oldest record (FIFO); after capacity+1 additions into a fresh history the
first added record is gone and the rest keep their insertion order; and
concretely, capacity 3 with records a=1,2,3,4 leaves the records a=2,3,4. -/
theorem C1_history_bounded_fifo :
    (∀ (max_size : Nat) (cs : List Calculation), 0 < max_size →
        (cs.foldl History.add (History.new max_size)).items.length ≤ max_size) ∧
    (∀ (h : History) (c : Calculation), 0 < h.max → h.items.length = h.max →
        (h.add c).items = h.items.tail ++ [c]) ∧
    (∀ (max_size : Nat) (cs : List Calculation), 0 < max_size → cs.length = max_size + 1 →
        (cs.foldl History.add (History.new max_size)).items = cs.tail) ∧
    ([testRec 1, testRec 2, testRec 3, testRec 4].foldl History.add (History.new 3)).items
      = [testRec 2, testRec 3, testRec 4] := by
  refine ⟨?_, ?_, ?_, ?_⟩
  · intro m cs _
    exact History.foldl_add_length_le cs (History.new m) (by simp [History.new])
  · intro h c hpos hful
    exact History.add_at_capacity h c hpos hful
  · intro m cs hpos hlen
    exact History.foldl_add_capacity_succ m cs hpos hlen
  · have h4 := History.foldl_add_capacity_succ 3
      [testRec 1, testRec 2, testRec 3, testRec 4] (by omega) (by simp)
    simpa using h4

theorem C1_witness :
    0 < 3 ∧
      ([testRec 1, testRec 2, testRec 3, testRec 4].foldl History.add
        (History.new 3)).items.length ≤ 3 :=
  ⟨by decide,
    C1_history_bounded_fifo.1 3 [testRec 1, testRec 2, testRec 3, testRec 4] (by decide)⟩

/-- C2: at the Caretaker level, after `save S0`, `undo S1` returns exactly
`S0` leaving `S1` as the sole redo entry, and the subsequent `redo S0`
returns `S1`, pushing `S0` back onto the undo stack.  Lifted to the facade:
from any state that saved a pre-mutation snapshot and then mutated the
history arbitrarily, `cmd_undo` restores the exact pre-mutation record
sequence and `cmd_redo` after it restores the exact post-mutation
sequence. -/
theorem C2_undo_redo_roundtrip :
    (∀ (ct : Caretaker) (S0 S1 : HistorySnapshot),
        (ct.save S0).undo S1 = .ok (S0, ⟨ct.undoStack, [S1]⟩) ∧
        (Caretaker.mk ct.undoStack [S1]).redo S0 = .ok (S1, ⟨ct.undoStack ++ [S0], []⟩)) ∧
    (∀ (st : Calculator) (postItems : List Calculation),
        ∃ st2 st3 : Calculator,
          ({ history := { st.history with items := postItems },
             caretaker := st.caretaker.save st.history.to_snapshot,
             precision := st.precision } : Calculator).cmd_undo = .ok st2 ∧
          st2.history.items = st.history.items ∧
          st2.cmd_redo = .ok st3 ∧
          st3.history.items = postItems) := by
  constructor
  · intro ct S0 S1
    constructor
    · simp [Caretaker.save, Caretaker.undo]
    · simp [Caretaker.redo]
  · intro st postItems
    refine ⟨⟨⟨st.history.items, st.history.max⟩, ⟨st.caretaker.undoStack, [⟨postItems⟩]⟩,
        st.precision⟩,
      ⟨⟨postItems, st.history.max⟩, ⟨st.caretaker.undoStack ++ [⟨st.history.items⟩], []⟩,
        st.precision⟩, ?_, ?_, ?_, ?_⟩ <;>
      simp [Calculator.cmd_undo, Calculator.cmd_redo, Caretaker.save, Caretaker.undo,
        Caretaker.redo, History.to_snapshot, History.restore]

/-- C3: `undo` on an empty undo stack and `redo` on an empty redo stack fail
deterministically with the corresponding `IndexError`; every `save` clears
the redo stack; and after any of the facade's mutating commands (`calculate`
— even a failing one —, `cmd_clear`, `cmd_load`) a subsequent `cmd_redo`
fails, in particular when the mutating command follows an undo. -/
theorem C3_redo_invalidation :
    (∀ (redoStack : List HistorySnapshot) (cur : HistorySnapshot),
        (Caretaker.mk [] redoStack).undo cur = .error (.indexError "Nothing to undo")) ∧
    (∀ (undoStack : List HistorySnapshot) (cur : HistorySnapshot),
        (Caretaker.mk undoStack []).redo cur = .error (.indexError "Nothing to redo")) ∧
    (∀ (ct : Caretaker) (s : HistorySnapshot), (ct.save s).redoStack = []) ∧
    (∀ (st : Calculator) (op_name : String) (a b : ℝ) (ts : String),
        ((st.calculate op_name a b ts).1).cmd_redo = .error (.indexError "Nothing to redo")) ∧
    (∀ st : Calculator,
        (st.cmd_clear).cmd_redo = .error (.indexError "Nothing to redo")) ∧
    (∀ (st : Calculator) (file : Option CsvFile),
        ((st.cmd_load file).1).cmd_redo = .error (.indexError "Nothing to redo")) := by
  refine ⟨?_, ?_, ?_, ?_, ?_, ?_⟩
  · intro r cur
    simp [Caretaker.undo]
  · intro u cur
    simp [Caretaker.redo]
  · intro ct s
    rfl
  · intro st op_name a b ts
    unfold Calculator.calculate
    cases executeOp op_name a b <;>
      simp [Calculator.cmd_redo, Caretaker.redo, Caretaker.save]
  · intro st
    simp [Calculator.cmd_clear, Calculator.cmd_redo, Caretaker.redo, Caretaker.save]
  · intro st file
    simp [Calculator.cmd_load, Calculator.cmd_redo, Caretaker.redo, Caretaker.save]

theorem findIdx?_some_of_exists {α : Type} (p : α → Bool) (l : List α)
    (hx : ∃ x ∈ l, p x) : ∃ i, l.findIdx? p = some i ∧ i < l.length := by
  induction l with
  | nil => simp at hx
  | cons a t ih =>
    by_cases hpa : p a
    · exact ⟨0, by simp [List.findIdx?_cons, hpa], by simp⟩
    · obtain ⟨x, hxl, hpx⟩ := hx
      have hxT : x ∈ t := by
        rcases List.mem_cons.mp hxl with rfl | hmem
        · exact absurd hpx (by simp [hpa])
        · exact hmem
      obtain ⟨i, hfi, hlt⟩ := ih ⟨x, hxT, hpx⟩
      refine ⟨i + 1, ?_, by simpa using Nat.succ_lt_succ hlt⟩
      simp only [List.findIdx?_cons, hpa, Bool.false_eq_true, if_false]
      simp
      exact hfi

theorem getCell_ok (f : CsvFile) (r : List Cell) (nm : String) (hmem : nm ∈ f.header)
    (hlen : r.length = f.header.length) : ∃ cell, getCell f r nm = .ok cell := by
  obtain ⟨i, hfi, hlt⟩ :=
    findIdx?_some_of_exists (fun c => c == nm) f.header ⟨nm, hmem, by simp⟩
  have hilt : i < r.length := by omega
  refine ⟨r.get ⟨i, hilt⟩, ?_⟩
  simp [getCell, hfi, List.getElem?_eq_getElem hilt]

theorem rowToCalcE_calcToRow (c : Calculation) (rs : List (List Cell)) :
    rowToCalcE ⟨csvColumns, rs⟩ (calcToRow c) = .ok c := rfl

theorem rowsToCalcs_map_calcToRow (rs : List (List Cell)) (l : List Calculation) :
    rowsToCalcs ⟨csvColumns, rs⟩ (l.map calcToRow) = .ok l := by
  induction l with
  | nil => rfl
  | cons c l ih =>
    simp [rowsToCalcs, rowToCalcE_calcToRow, ih, Bind.bind, Except.bind]

theorem rowsToCalcs_ok_iff (f : CsvFile) (rs : List (List Cell)) (l : List Calculation) :
    rowsToCalcs f rs = .ok l ↔ List.Forall₂ (fun r c => rowToCalcE f r = .ok c) rs l := by
  induction rs generalizing l with
  | nil => cases l <;> simp [rowsToCalcs]
  | cons r rs ih =>
    cases l with
    | nil =>
      cases hr : rowToCalcE f r <;> cases hrs : rowsToCalcs f rs <;>
        simp [rowsToCalcs, hr, hrs, Bind.bind, Except.bind]
    | cons c cs =>
      cases hr : rowToCalcE f r with
      | error e => simp [rowsToCalcs, hr, List.forall₂_cons, Bind.bind, Except.bind]
      | ok c0 =>
        cases hrs : rowsToCalcs f rs with
        | error e =>
          simp [rowsToCalcs, hr, hrs, List.forall₂_cons, ← ih, Bind.bind, Except.bind]
        | ok cs0 =>
          simp [rowsToCalcs, hr, hrs, List.forall₂_cons, ← ih, Bind.bind, Except.bind]

theorem rowsToCalcs_err_iff (f : CsvFile) (rs : List (List Cell)) :
    (∃ e, rowsToCalcs f rs = .error e) ↔ ∃ r ∈ rs, ∃ e, rowToCalcE f r = .error e := by
  induction rs with
  | nil => simp [rowsToCalcs]
  | cons r rs ih =>
    cases hr : rowToCalcE f r with
    | error e => simp [rowsToCalcs, hr, Bind.bind, Except.bind]
    | ok c =>
      cases hrs : rowsToCalcs f rs with
      | error e => simp [rowsToCalcs, hr, hrs, ← ih, Bind.bind, Except.bind]
      | ok cs => simp [rowsToCalcs, hr, hrs, ← ih, Bind.bind, Except.bind]

theorem mem_header_of_missing_nil (header : List String)
    (hmiss : missingColumns header = []) : ∀ nm ∈ csvColumns, nm ∈ header := by
  intro nm hnm
  have hall : ∀ c ∈ sortedRequiredColumns, header.contains c = true := by
    intro c hc
    by_contra hnc
    have hmemf : c ∈ missingColumns header :=
      List.mem_filter.mpr ⟨hc, by simpa using hnc⟩
    simp [hmiss] at hmemf
  have hnm' : nm ∈ sortedRequiredColumns := by
    fin_cases hnm <;> simp [sortedRequiredColumns]
  simpa using hall nm hnm'

theorem rowToCalcE_err_iff (f : CsvFile) (r : List Cell)
    (hmem : ∀ nm ∈ csvColumns, nm ∈ f.header) (hlen : r.length = f.header.length) :
    (∃ e, rowToCalcE f r = .error e) ↔
      ∃ nm ∈ ["a", "b", "result"], ∃ s, getCell f r nm = .ok (.str s) := by
  obtain ⟨cop, hop⟩ := getCell_ok f r "operation" (hmem _ (by simp [csvColumns])) hlen
  obtain ⟨ca, hca⟩ := getCell_ok f r "a" (hmem _ (by simp [csvColumns])) hlen
  obtain ⟨cb, hcb⟩ := getCell_ok f r "b" (hmem _ (by simp [csvColumns])) hlen
  obtain ⟨cr, hcr⟩ := getCell_ok f r "result" (hmem _ (by simp [csvColumns])) hlen
  obtain ⟨cts, hts⟩ := getCell_ok f r "timestamp" (hmem _ (by simp [csvColumns])) hlen
  rcases ca with sa | xa <;> rcases cb with sb | xb <;> rcases cr with sr | xr <;>
    simp [rowToCalcE, hop, hca, hcb, hcr, hts, Cell.asFloatE, Bind.bind, Except.bind]

theorem load_csv_ok_inv (h : History) (f : CsvFile) (n : Nat)
    (hok : (h.load_csv (some f)).2 = .ok n) :
    ∃ items, rowsToCalcs f f.rows = .ok items ∧ n = items.length ∧
      ∀ h' : History, h'.load_csv (some f) = ({ h' with items := items }, .ok items.length) := by
  by_cases h1 : f.header = []
  · simp [History.load_csv, h1] at hok
  · by_cases h2 : f.rows.isEmpty
    · simp [History.load_csv, h1, h2] at hok
    · by_cases h3 : missingColumns f.header = []
      · cases hrc : rowsToCalcs f f.rows with
        | error e => simp [History.load_csv, h1, h2, h3, hrc] at hok
        | ok items =>
          refine ⟨items, rfl, ?_, ?_⟩
          · simp [History.load_csv, h1, h2, h3, hrc] at hok
            omega
          · intro h'
            simp [History.load_csv, h1, h2, h3, hrc]
      · simp [History.load_csv, h1, h2, h3] at hok

theorem load_csv_error_inv (h : History) (file : Option CsvFile) (e : PyError)
    (he : (h.load_csv file).2 = .error e) :
    (h.load_csv file).1 = h ∧ ∃ msg, e = .historyError msg := by
  cases file with
  | none =>
    refine ⟨rfl, ?_⟩
    simp [History.load_csv] at he
    exact ⟨_, he.symm⟩
  | some f =>
    by_cases h1 : f.header = []
    · refine ⟨by simp [History.load_csv, h1], ?_⟩
      simp [History.load_csv, h1] at he
      exact ⟨_, he.symm⟩
    · by_cases h2 : f.rows.isEmpty
      · refine ⟨by simp [History.load_csv, h1, h2], ?_⟩
        simp [History.load_csv, h1, h2] at he
        exact ⟨_, he.symm⟩
      · by_cases h3 : missingColumns f.header = []
        · cases hrc : rowsToCalcs f f.rows with
          | error e0 =>
            refine ⟨by simp [History.load_csv, h1, h2, h3, hrc], ?_⟩
            simp [History.load_csv, h1, h2, h3, hrc] at he
            exact ⟨_, he.symm⟩
          | ok items =>
            simp [History.load_csv, h1, h2, h3, hrc] at he
        · refine ⟨by simp [History.load_csv, h1, h2, h3], ?_⟩
          simp [History.load_csv, h1, h2, h3] at he
          exact ⟨_, he.symm⟩

/-- C4 (counterexample): for the empty History the claim fails — saving an
empty History writes a header-only file, and loading that file raises the
"empty" HistoryError instead of reproducing the empty record sequence. -/
theorem C4_counterexample :
    ((History.new 10).load_csv (some ((History.new 5).save_csv))).2
      = .error (.historyError "History file is empty.") := rfl

/-- C4 (amended): for every History with at least one record, saving and then
loading the untouched file into a fresh History of any capacity succeeds,
reproduces exactly the same record sequence (every field of every record, in
order), and returns the record count. -/
theorem C4_save_load_roundtrip (h : History) (cap : Nat) (hne : h.items ≠ []) :
    (History.new cap).load_csv (some h.save_csv) = (⟨h.items, cap⟩, .ok h.items.length) := by
  have hrows : (h.items.map calcToRow).isEmpty = false := by
    simpa using hne
  simp only [History.save_csv, History.to_dataframe, History.load_csv]
  rw [if_neg (by decide), if_neg (by simp [hrows]), if_pos (by decide)]
  rw [rowsToCalcs_map_calcToRow]
  rfl

theorem C4_witness :
    ([testRec 1] ≠ ([] : List Calculation)) ∧
      (History.new 10).load_csv (some (History.mk [testRec 1] 5).save_csv)
        = (History.mk [testRec 1] 10, .ok 1) :=
  ⟨by simp, C4_save_load_roundtrip ⟨[testRec 1], 5⟩ 10 (by simp)⟩

/-- C5: `load_csv` fails exactly when the path is missing ("not found"), the
file has no columns or no data rows ("empty"), a required column is absent
(the message lists the missing columns in sorted order), or an `a`/`b`/
`result` cell of some row does not parse as a float; each failure carries a
HistoryError and leaves the in-memory History unchanged. -/
theorem C5_load_failure_modes (h : History) (file : Option CsvFile) :
    (file = none →
      h.load_csv file = (h, .error (.historyError "History file not found."))) ∧
    (∀ f, file = some f → f.header = [] →
      h.load_csv file = (h, .error (.historyError "History file is empty."))) ∧
    (∀ f, file = some f → f.header ≠ [] → f.rows = [] →
      h.load_csv file = (h, .error (.historyError "History file is empty."))) ∧
    (∀ f, file = some f → f.header ≠ [] → f.rows ≠ [] → missingColumns f.header ≠ [] →
      h.load_csv file =
        (h, .error (.historyError (missingColumnsMessage (missingColumns f.header))))) ∧
    (∀ f, file = some f → f.Rect →
      ((∃ e, (h.load_csv file).2 = .error e) ↔
        (f.header = [] ∨ f.rows = [] ∨ missingColumns f.header ≠ [] ∨
          ∃ r ∈ f.rows, ∃ nm ∈ ["a", "b", "result"], ∃ s, getCell f r nm = .ok (.str s)))) ∧
    (∀ e, (h.load_csv file).2 = .error e →
      (h.load_csv file).1 = h ∧ ∃ msg, e = .historyError msg) := by
  refine ⟨?_, ?_, ?_, ?_, ?_, ?_⟩
  · rintro rfl
    rfl
  · rintro f rfl hdr
    simp [History.load_csv, hdr]
  · rintro f rfl hdr hrows
    simp [History.load_csv, hdr, hrows]
  · rintro f rfl hdr hrows hmiss
    simp [History.load_csv, hdr, hrows, hmiss]
  · rintro f rfl hrect
    by_cases h1 : f.header = []
    · simp [History.load_csv, h1]
    · by_cases h2 : f.rows = []
      · simp [History.load_csv, h1, h2]
      · by_cases h3 : missingColumns f.header = []
        · have hmem := mem_header_of_missing_nil f.header h3
          have h2b : f.rows.isEmpty = false := by simp [h2]
          cases hrc : rowsToCalcs f f.rows with
          | error e =>
            obtain ⟨r, hrmem, e', he'⟩ := (rowsToCalcs_err_iff f f.rows).mp ⟨e, hrc⟩
            have hbadcell := (rowToCalcE_err_iff f r hmem (hrect r hrmem)).mp ⟨e', he'⟩
            constructor
            · intro _
              exact Or.inr (Or.inr (Or.inr ⟨r, hrmem, hbadcell⟩))
            · intro _
              exact ⟨.historyError (invalidTypesMessage e),
                by simp [History.load_csv, h1, h2b, h3, hrc]⟩
          | ok items =>
            constructor
            · rintro ⟨e, he⟩
              simp [History.load_csv, h1, h2b, h3, hrc] at he
            · rintro (hc | hc | hc | ⟨r, hrmem, hbadcell⟩)
              · exact absurd hc h1
              · exact absurd hc h2
              · exact absurd h3 hc
              · obtain ⟨e, he⟩ := (rowToCalcE_err_iff f r hmem (hrect r hrmem)).mpr hbadcell
                obtain ⟨e', he'⟩ := (rowsToCalcs_err_iff f f.rows).mpr ⟨r, hrmem, e, he⟩
                rw [hrc] at he'
                simp at he'
        · have h2b : f.rows.isEmpty = false := by simp [h2]
          constructor
          · intro _
            exact Or.inr (Or.inr (Or.inl h3))
          · intro _
            exact ⟨.historyError (missingColumnsMessage (missingColumns f.header)),
              by simp [History.load_csv, h1, h2b, h3]⟩
  · intro e he
    exact load_csv_error_inv h file e he

theorem C5_witness :
    (History.new 10).load_csv none
      = (History.new 10, .error (.historyError "History file not found.")) :=
  (C5_load_failure_modes (History.new 10) none).1 rfl

/-- C6: a successful load replaces the entire record sequence with the
per-row parses of the file's data rows in file order (independently of the
previous in-memory content), and returns the number of data rows. -/
theorem C6_load_replaces_in_order (h : History) (f : CsvFile) (n : Nat)
    (hok : (h.load_csv (some f)).2 = .ok n) :
    List.Forall₂ (fun r c => rowToCalcE f r = .ok c) f.rows (h.load_csv (some f)).1.items ∧
    n = f.rows.length ∧
    (∀ h' : History, (h'.load_csv (some f)).1.items = (h.load_csv (some f)).1.items ∧
      (h'.load_csv (some f)).2 = .ok n) := by
  obtain ⟨items, hrc, hn, hall⟩ := load_csv_ok_inv h f n hok
  have hfor := (rowsToCalcs_ok_iff f f.rows items).mp hrc
  have hitems : (h.load_csv (some f)).1.items = items := by rw [hall h]
  refine ⟨by rw [hitems]; exact hfor, by rw [hn, hfor.length_eq], ?_⟩
  intro h'
  refine ⟨by rw [hall h', hitems], ?_⟩
  rw [hall h']
  simpa using hn.symm

theorem C6_witness :
    ((History.new 2).load_csv (some (History.mk [testRec 1] 7).save_csv)).2 = .ok 1 ∧
      1 = ((History.mk [testRec 1] 7).save_csv).rows.length :=
  ⟨rfl, (C6_load_replaces_in_order (History.new 2)
    (History.mk [testRec 1] 7).save_csv 1 rfl).2.1⟩

/-- C10: a successful load keeps the capacity but sets the record sequence to
all data rows of the file, so a file with more rows than the capacity leaves
the History longer than its capacity — eviction is not applied by load. -/
theorem C10_load_bypasses_capacity (h : History) (f : CsvFile) (n : Nat)
    (hok : (h.load_csv (some f)).2 = .ok n) :
    n = f.rows.length ∧
    (h.load_csv (some f)).1.max = h.max ∧
    (h.load_csv (some f)).1.items.length = f.rows.length ∧
    (f.rows.length > h.max →
      (h.load_csv (some f)).1.items.length > (h.load_csv (some f)).1.max) := by
  obtain ⟨items, hrc, hn, hall⟩ := load_csv_ok_inv h f n hok
  have hfor := (rowsToCalcs_ok_iff f f.rows items).mp hrc
  have hitems : (h.load_csv (some f)).1 = { h with items := items } := by
    rw [hall h]
  refine ⟨by rw [hn, hfor.length_eq], by rw [hitems], ?_, ?_⟩
  · rw [hitems, ← hfor.length_eq]
  · intro hgt
    rw [hitems, ← hfor.length_eq]
    simpa using hgt

theorem C10_witness :
    (((History.new 1).load_csv (some (History.mk [testRec 1, testRec 2] 9).save_csv)).2
        = .ok 2) ∧
      ((History.new 1).load_csv
          (some (History.mk [testRec 1, testRec 2] 9).save_csv)).1.items.length >
        ((History.new 1).load_csv
          (some (History.mk [testRec 1, testRec 2] 9).save_csv)).1.max :=
  ⟨rfl, (C10_load_bypasses_capacity (History.new 1)
      (History.mk [testRec 1, testRec 2] 9).save_csv 2 rfl).2.2.2 (by decide)⟩

theorem executeOp_add (a b : ℝ) : executeOp "add" a b = .ok (a + b) := by
  have hkey : opKey "add" = "add" := by decide
  simp only [executeOp, hkey]
  rw [if_pos (by decide)]

theorem executeOp_subtract (a b : ℝ) : executeOp "subtract" a b = .ok (a - b) := by
  have hkey : opKey "subtract" = "subtract" := by decide
  simp only [executeOp, hkey]
  rw [if_neg (by decide), if_pos (by decide)]

theorem executeOp_multiply (a b : ℝ) : executeOp "multiply" a b = .ok (a * b) := by
  have hkey : opKey "multiply" = "multiply" := by decide
  simp only [executeOp, hkey]
  rw [if_neg (by decide), if_neg (by decide), if_pos (by decide)]

theorem executeOp_divide (a b : ℝ) : executeOp "divide" a b =
    if b = 0 then .error (.operationError "Division by zero.") else .ok (a / b) := by
  have hkey : opKey "divide" = "divide" := by decide
  simp only [executeOp, hkey]
  rw [if_neg (by decide), if_neg (by decide), if_neg (by decide), if_pos (by decide)]

theorem executeOp_power (a b : ℝ) : executeOp "power" a b = .ok (a ^ b) := by
  have hkey : opKey "power" = "power" := by decide
  simp only [executeOp, hkey]
  rw [if_neg (by decide), if_neg (by decide), if_neg (by decide), if_neg (by decide),
    if_pos (by decide)]

theorem executeOp_root (a b : ℝ) : executeOp "root" a b = Root.execute a b := by
  have hkey : opKey "root" = "root" := by decide
  simp only [executeOp, hkey]
  rw [if_neg (by decide), if_neg (by decide), if_neg (by decide), if_neg (by decide),
    if_neg (by decide), if_pos (by decide)]

theorem executeOp_modulus (a b : ℝ) : executeOp "modulus" a b =
    if b = 0 then .error (.operationError "Modulus by zero.")
    else .ok (a - b * (⌊a / b⌋ : ℝ)) := by
  have hkey : opKey "modulus" = "modulus" := by decide
  simp only [executeOp, hkey]
  rw [if_neg (by decide), if_neg (by decide), if_neg (by decide), if_neg (by decide),
    if_neg (by decide), if_neg (by decide), if_pos (by decide)]

theorem executeOp_int_divide (a b : ℝ) : executeOp "int_divide" a b =
    if b = 0 then .error (.operationError "Integer division by zero.")
    else .ok ((⌊a / b⌋ : ℝ)) := by
  have hkey : opKey "int_divide" = "int_divide" := by decide
  simp only [executeOp, hkey]
  rw [if_neg (by decide), if_neg (by decide), if_neg (by decide), if_neg (by decide),
    if_neg (by decide), if_neg (by decide), if_neg (by decide), if_pos (by decide)]

theorem executeOp_percent (a b : ℝ) : executeOp "percent" a b =
    if b = 0 then .error (.operationError "Percentage with denominator zero.")
    else .ok (a / b * 100) := by
  have hkey : opKey "percent" = "percent" := by decide
  simp only [executeOp, hkey]
  rw [if_neg (by decide), if_neg (by decide), if_neg (by decide), if_neg (by decide),
    if_neg (by decide), if_neg (by decide), if_neg (by decide), if_neg (by decide),
    if_pos (by decide)]

theorem executeOp_abs_diff (a b : ℝ) : executeOp "abs_diff" a b = .ok |a - b| := by
  have hkey : opKey "abs_diff" = "abs_diff" := by decide
  simp only [executeOp, hkey]
  rw [if_neg (by decide), if_neg (by decide), if_neg (by decide), if_neg (by decide),
    if_neg (by decide), if_neg (by decide), if_neg (by decide), if_neg (by decide),
    if_neg (by decide), if_pos (by decide)]

theorem executeOp_unknown (name : String) (a b : ℝ) (h : opKey name ∉ operationNames) :
    executeOp name a b = .error (.operationError ("Unknown operation: " ++ name)) := by
  simp only [operationNames, List.mem_cons, List.not_mem_nil, or_false, not_or] at h
  obtain ⟨h1, h2, h3, h4, h5, h6, h7, h8, h9, h10⟩ := h
  simp only [executeOp]
  rw [if_neg h1, if_neg h2, if_neg h3, if_neg h4, if_neg h5, if_neg h6, if_neg h7,
    if_neg h8, if_neg h9, if_neg h10]

theorem rootExecute_err_iff (a b : ℝ) :
    (∃ e, Root.execute a b = .error e) ↔
      (b = 0 ∨ (a < 0 ∧ (b ≠ (⌊b⌋ : ℝ) ∨ ⌊b⌋ % 2 = 0))) := by
  unfold Root.execute
  by_cases hb : b = 0
  · rw [if_pos hb]
    exact iff_of_true ⟨_, rfl⟩ (Or.inl hb)
  · rw [if_neg hb]
    by_cases ha : a < 0
    · rw [if_pos ha]
      by_cases hint : b = (⌊b⌋ : ℝ)
      · rw [if_pos hint]
        by_cases hev : ⌊b⌋ % 2 = 0
        · rw [if_pos hev]
          exact iff_of_true ⟨_, rfl⟩ (Or.inr ⟨ha, Or.inr hev⟩)
        · rw [if_neg hev]
          apply iff_of_false
          · simp
          · rintro (h | ⟨-, h | h⟩)
            · exact hb h
            · exact h hint
            · exact hev h
      · rw [if_neg hint]
        exact iff_of_true ⟨_, rfl⟩ (Or.inr ⟨ha, Or.inl hint⟩)
    · rw [if_neg ha]
      apply iff_of_false
      · simp
      · rintro (h | ⟨h, -⟩)
        · exact hb h
        · exact ha h

theorem rpow_27_one_third : (27 : ℝ) ^ ((1 : ℝ) / 3) = 3 := by
  have h27 : (27 : ℝ) = 3 ^ (3 : ℕ) := by norm_num
  rw [h27, ← Real.rpow_natCast 3 3, ← Real.rpow_mul (by norm_num)]
  norm_num

theorem rootExecute_neg27_3 : Root.execute (-27) 3 = .ok (-3) := by
  have hf : ⌊(3 : ℝ)⌋ = 3 := by norm_num
  unfold Root.execute
  rw [if_neg (by norm_num), if_pos (by norm_num), if_pos (by rw [hf]; norm_num),
    if_neg (by rw [hf]; decide)]
  rw [hf]
  norm_num [rpow_27_one_third]

theorem rootExecute_neg8_2 :
    Root.execute (-8) 2 = .error (.operationError "Even root of negative number is not real.") := by
  have hf : ⌊(2 : ℝ)⌋ = 2 := by norm_num
  unfold Root.execute
  rw [if_neg (by norm_num), if_pos (by norm_num), if_pos (by rw [hf]; norm_num),
    if_pos (by rw [hf]; decide)]

/-- C7: `execute` fails with an OperationError exactly for an unrecognized
name, a zero second operand in the division family (divide, modulus,
int_divide, percent), a zero root index, and a negative root base with a
non-integer or even integer index; a negative base with an odd integer index
`n` yields `-(|a| ^ (1/n))`; the remaining operations never fail.
Concretely, `divide 1 0` and `root (-8) 2` fail and `root (-27) 3 = -3`. -/
theorem C7_execute_contract :
    (∀ a b : ℝ, (∃ e, executeOp "divide" a b = .error e) ↔ b = 0) ∧
    (∀ a b : ℝ, (∃ e, executeOp "modulus" a b = .error e) ↔ b = 0) ∧
    (∀ a b : ℝ, (∃ e, executeOp "int_divide" a b = .error e) ↔ b = 0) ∧
    (∀ a b : ℝ, (∃ e, executeOp "percent" a b = .error e) ↔ b = 0) ∧
    (∀ a b : ℝ, (∃ e, executeOp "root" a b = .error e) ↔
      (b = 0 ∨ (a < 0 ∧ (b ≠ (⌊b⌋ : ℝ) ∨ ⌊b⌋ % 2 = 0)))) ∧
    (∀ a b : ℝ, a < 0 → b = (⌊b⌋ : ℝ) → ⌊b⌋ % 2 ≠ 0 →
      executeOp "root" a b = .ok (-(|a| ^ ((1 : ℝ) / (⌊b⌋ : ℝ))))) ∧
    (∀ a b : ℝ,
      executeOp "add" a b = .ok (a + b) ∧ executeOp "subtract" a b = .ok (a - b) ∧
      executeOp "multiply" a b = .ok (a * b) ∧ executeOp "power" a b = .ok (a ^ b) ∧
      executeOp "abs_diff" a b = .ok |a - b|) ∧
    (∀ (name : String) (a b : ℝ), opKey name ∉ operationNames →
      executeOp name a b = .error (.operationError ("Unknown operation: " ++ name))) ∧
    executeOp "divide" 1 0 = .error (.operationError "Division by zero.") ∧
    executeOp "root" (-8) 2 = .error (.operationError "Even root of negative number is not real.") ∧
    executeOp "root" (-27) 3 = .ok (-3) := by
  have hdiv : ∀ a b : ℝ, (∃ e, executeOp "divide" a b = .error e) ↔ b = 0 := by
    intro a b
    by_cases hb : b = 0 <;> simp [executeOp_divide, hb]
  refine ⟨hdiv, ?_, ?_, ?_, ?_, ?_, ?_, ?_, ?_, ?_, ?_⟩
  · intro a b
    by_cases hb : b = 0 <;> simp [executeOp_modulus, hb]
  · intro a b
    by_cases hb : b = 0 <;> simp [executeOp_int_divide, hb]
  · intro a b
    by_cases hb : b = 0 <;> simp [executeOp_percent, hb]
  · intro a b
    rw [executeOp_root]
    exact rootExecute_err_iff a b
  · intro a b ha hint hev
    rw [executeOp_root]
    unfold Root.execute
    rw [if_neg (by intro h0; exact hev (by rw [h0]; norm_num)), if_pos ha,
      if_pos hint, if_neg hev]
  · intro a b
    exact ⟨executeOp_add a b, executeOp_subtract a b, executeOp_multiply a b,
      executeOp_power a b, executeOp_abs_diff a b⟩
  · exact executeOp_unknown
  · rw [executeOp_divide]
    norm_num
  · rw [executeOp_root]
    exact rootExecute_neg8_2
  · rw [executeOp_root]
    exact rootExecute_neg27_3

theorem C7_witness :
    (opKey "noop" ∉ operationNames) ∧
      executeOp "noop" 1 2 = .error (.operationError ("Unknown operation: " ++ "noop")) :=
  ⟨by decide, C7_execute_contract.2.2.2.2.2.2.2.1 "noop" 1 2 (by decide)⟩

/-- C8 (counterexample): on a fresh Calculator, `cmd_undo` surfaces the
Caretaker's raw `IndexError("Nothing to undo")`, which is not in the
`CalculatorError` taxonomy — the facade does not wrap it as a
HistoryError. -/
theorem C8_counterexample :
    (Calculator.mk (History.new 5) Caretaker.new 6).cmd_undo
        = .error (.indexError "Nothing to undo") ∧
      PyError.isCalculatorError (.indexError "Nothing to undo") = false :=
  ⟨rfl, rfl⟩

/-- C8 (amended): the facade propagates the Caretaker's internal signals
unchanged — `cmd_undo` on an empty undo stack and `cmd_redo` on an empty
redo stack fail with the raw `IndexError`, which lies outside the public
`CalculatorError` taxonomy (the REPL only handles it in its generic
catch-all). -/
theorem C8_undo_redo_signal_unwrapped (st : Calculator) :
    (st.caretaker.undoStack = [] →
      st.cmd_undo = .error (.indexError "Nothing to undo")) ∧
    (st.caretaker.redoStack = [] →
      st.cmd_redo = .error (.indexError "Nothing to redo")) ∧
    PyError.isCalculatorError (.indexError "Nothing to undo") = false ∧
    PyError.isCalculatorError (.indexError "Nothing to redo") = false := by
  refine ⟨?_, ?_, rfl, rfl⟩
  · intro hu
    simp [Calculator.cmd_undo, Caretaker.undo, hu]
  · intro hr
    simp [Calculator.cmd_redo, Caretaker.redo, hr]

theorem C8_witness :
    ((Calculator.mk (History.new 5) Caretaker.new 6).caretaker.undoStack = []) ∧
      (Calculator.mk (History.new 5) Caretaker.new 6).cmd_undo
        = .error (.indexError "Nothing to undo") :=
  ⟨rfl, (C8_undo_redo_signal_unwrapped (Calculator.mk (History.new 5) Caretaker.new 6)).1 rfl⟩

/-- C9: a failing `calculate` (unknown name or domain error) leaves the
record sequence unchanged but still mutates the Caretaker: the pre-call
snapshot is pushed (the snapshot is saved before the operation is created or
executed) and the redo stack is cleared; the next undo therefore restores a
state with the same record sequence as the current one. -/
theorem C9_failed_calculate_still_saves (st : Calculator) (op_name : String) (a b : ℝ)
    (ts : String) (e : PyError) (hfail : (st.calculate op_name a b ts).2 = .error e) :
    (st.calculate op_name a b ts).1.history = st.history ∧
    (st.calculate op_name a b ts).1.caretaker = st.caretaker.save st.history.to_snapshot ∧
    (st.calculate op_name a b ts).1.caretaker.redoStack = [] ∧
    ∃ st2, (st.calculate op_name a b ts).1.cmd_undo = .ok st2 ∧
      st2.history.items = st.history.items := by
  unfold Calculator.calculate at hfail ⊢
  cases hex : executeOp op_name a b with
  | error e0 =>
    refine ⟨rfl, rfl, rfl, ?_⟩
    refine ⟨⟨⟨st.history.items, st.history.max⟩,
      ⟨st.caretaker.undoStack, [⟨st.history.items⟩]⟩, st.precision⟩, ?_, rfl⟩
    simp [Calculator.cmd_undo, Caretaker.undo, Caretaker.save, History.to_snapshot,
      History.restore]
  | ok v =>
    rw [hex] at hfail
    simp at hfail

theorem C9_witness :
    ((Calculator.mk (History.new 5) Caretaker.new 6).calculate "divide" 1 0 "t").2
        = .error (.operationError "Division by zero.") ∧
      ((Calculator.mk (History.new 5) Caretaker.new 6).calculate "divide" 1 0 "t").1.history
        = History.new 5 := by
  have hfail : ((Calculator.mk (History.new 5) Caretaker.new 6).calculate "divide" 1 0 "t").2
      = .error (.operationError "Division by zero.") := by
    unfold Calculator.calculate
    rw [show executeOp "divide" 1 0 = .error (.operationError "Division by zero.") by
      rw [executeOp_divide]; norm_num]
  exact ⟨hfail, (C9_failed_calculate_still_saves (Calculator.mk (History.new 5) Caretaker.new 6)
    "divide" 1 0 "t" (.operationError "Division by zero.") hfail).1⟩
